import Mathlib

/-!
Shallow embedding of the ZYBOCHAT real-time messaging backend
(`app/consumers.py`, `app/views.py`, `app/models.py`).

The Django ORM store is modelled as explicit lists of rows; every database
call from the source becomes a pure function on a `Store`.  Operations that
the source wraps in `try/except` (which catch any persistence error, log it
and continue) take a `dbOk : Bool` flag injecting a generic persistence
failure.  The side effects of the websocket consumers (group join/leave, group
sends, accept/close) are reified as an `Action`/`Broadcast` trace.
-/

namespace ZyboChat

/-- A row of the `User` model (`app/models.py`): only the fields the core
touches.  `is_online` is mutated by `update_user_status`. -/
structure Usr where
  id : Nat
  username : String
  is_online : Bool
deriving Repr, DecidableEq

/-- A row of the `Conversation` model (`app/models.py`): foreign keys
`user1`, `user2` stored as user ids. -/
structure Conversation where
  id : Nat
  user1 : Nat
  user2 : Nat
deriving Repr, DecidableEq

/-- A row of the `Message` model (`app/models.py`). `timestamp` is the
server-assigned creation instant, modelled as a Nat. -/
structure Message where
  id : Nat
  conversation : Nat
  sender : Nat
  content : String
  timestamp : Nat
  is_read : Bool
deriving Repr, DecidableEq

/-- The database state: the three tables plus the autoincrement counters
and the server clock used for `auto_now_add` timestamps. -/
structure Store where
  users : List Usr
  conversations : List Conversation
  messages : List Message
  nextConvId : Nat
  nextMsgId : Nat
  now : Nat
deriving Repr, DecidableEq

/-- The authenticated identity attached to a connection scope
(`self.scope["user"]`): either `AnonymousUser` or a real user. -/
inductive Ident where
  | anonymous : Ident
  | authUser (id : Nat) (username : String) : Ident
deriving Repr, DecidableEq

/-- The id of an identity; `AnonymousUser.id` is `None` in Django. -/
def Ident.idOf : Ident → Option Nat
  | .anonymous => none
  | .authUser i _ => some i

/-- Group events sent with `channel_layer.group_send` in `consumers.py`,
one constructor per event `type`. -/
inductive Broadcast where
  | chat_message (message_id : Nat) (message : String) (sender_id : Nat)
      (sender_name : String) (timestamp : Nat) : Broadcast
  | message_read (message_ids : List Nat) : Broadcast
  | typing (user_id : Nat) : Broadcast
  | stop_typing (user_id : Nat) : Broadcast
  | deleted (message_id : Nat) : Broadcast
  | user_status (user_id : Nat) (is_online : Bool) : Broadcast
  | user_presence (user_id : Nat) (username : String) (is_online : Bool) : Broadcast
deriving Repr, DecidableEq

/-- Channel-layer / websocket side effects of the connect and disconnect
handlers, in execution order. -/
inductive Action where
  | close : Action
  | accept : Action
  | group_add (group : String) : Action
  | group_discard (group : String) : Action
  | group_send (group : String) (event : Broadcast) : Action
deriving Repr, DecidableEq

/-- `sorted([a, b])` on the two user ids (`ChatConsumer.save_message`,
`ChatConsumer.connect`). -/
def sortedPair (a b : Nat) : Nat × Nat :=
  if a ≤ b then (a, b) else (b, a)

/-- `min(u, v, key=id)` / `max(u, v, key=id)` projected to ids, as written
in `chat_view` (`app/views.py`).  Python `min`/`max` return the first
argument on ties. -/
def minMaxPair (a b : Nat) : Nat × Nat :=
  ((if a ≤ b then a else b), (if b ≤ a then a else b))

/-- `Conversation.objects.get_or_create(user1=.., user2=..)` on the pair
canonicalized by `sorted(..., key=u.id)` (`ChatConsumer.save_message`):
returns the existing row for the ordered pair or appends a fresh one. -/
def get_or_create_conversation (st : Store) (a b : Nat) : Conversation × Store :=
  match st.conversations.find? (fun c =>
      c.user1 == (sortedPair a b).1 && c.user2 == (sortedPair a b).2) with
  | some c => (c, st)
  | none =>
    (⟨st.nextConvId, (sortedPair a b).1, (sortedPair a b).2⟩,
     { st with conversations := (st.conversations ++ [⟨st.nextConvId, (sortedPair a b).1, (sortedPair a b).2⟩]),
               nextConvId := st.nextConvId + 1 })

/-- The same `get_or_create`, but with the pair canonicalized by the
`min(...)`/`max(...)` calls of `chat_view` (`app/views.py`). -/
def chat_view_get_or_create (st : Store) (a b : Nat) : Conversation × Store :=
  match st.conversations.find? (fun c =>
      c.user1 == (minMaxPair a b).1 && c.user2 == (minMaxPair a b).2) with
  | some c => (c, st)
  | none =>
    (⟨st.nextConvId, (minMaxPair a b).1, (minMaxPair a b).2⟩,
     { st with conversations := (st.conversations ++ [⟨st.nextConvId, (minMaxPair a b).1, (minMaxPair a b).2⟩]),
               nextConvId := st.nextConvId + 1 })

/-- `chat_view(request, user_id)` (`app/views.py`): `get_object_or_404` on
the peer (404 → `none`), then get-or-create on the min/max pair. -/
def chat_view (st : Store) (requesterId otherId : Nat) : Option (Conversation × Store) :=
  if st.users.any (fun u => u.id == otherId) then
    some (chat_view_get_or_create st requesterId otherId)
  else
    none

/-- `ChatConsumer.save_message` (`consumers.py`): look up the peer
(`User.objects.get` — failure is caught and yields `None`), get-or-create
the canonical conversation, create the message row with `is_read=False`.
Any persistence error (injected via `dbOk = false`) is caught and yields
`None` with the store untouched. -/
def save_message (st : Store) (senderId otherId : Nat) (content : String)
    (dbOk : Bool) : Option Message × Store :=
  if dbOk then
    match st.users.find? (fun u => u.id == otherId) with
    | none => (none, st)
    | some _ =>
      let r := get_or_create_conversation st senderId otherId
      let msg : Message :=
        ⟨r.2.nextMsgId, r.1.id, senderId, content, r.2.now, false⟩
      (some msg, { r.2 with messages := r.2.messages ++ [msg],
                            nextMsgId := r.2.nextMsgId + 1 })
  else
    (none, st)

/-- `ChatConsumer.mark_messages_read` (`consumers.py`):
`Message.objects.filter(id__in=message_ids, is_read=False)
.exclude(sender_id=reader_id).update(is_read=True)`; exceptions are caught
and leave the store untouched. -/
def mark_messages_read (st : Store) (message_ids : List Nat) (reader_id : Nat)
    (dbOk : Bool) : Store :=
  if dbOk then
    { st with messages := st.messages.map (fun m =>
        if message_ids.contains m.id && !m.is_read && m.sender != reader_id then
          { m with is_read := true }
        else m) }
  else
    st

/-- `ChatConsumer.delete_message` (`consumers.py`):
`Message.objects.filter(id=message_id, sender_id=user_id).delete()`.
The queryset delete removes every matching row and reports the affected
count (which the async wrapper discards). -/
def delete_message (st : Store) (message_id user_id : Nat) : Store × Nat :=
  let hits := st.messages.filter (fun m => m.id == message_id && m.sender == user_id)
  ({ st with messages :=
      st.messages.filter (fun m => !(m.id == message_id && m.sender == user_id)) },
   hits.length)

/-- `update_user_status` (`consumers.py`, both consumers):
`User.objects.get(id=self.user.id)` then set `is_online`; `DoesNotExist`
(in particular for the anonymous id `None`) and any other error are caught
and leave the store untouched. -/
def update_user_status (st : Store) (uid : Option Nat) (status : Bool) : Store :=
  match uid with
  | none => st
  | some i =>
    if st.users.any (fun u => u.id == i) then
      { st with users := st.users.map (fun u =>
          if u.id == i then { u with is_online := status } else u) }
    else
      st

/-- The canonical room name `f"chat_{user_ids[0]}_{user_ids[1]}"` computed
in `ChatConsumer.connect` from the sorted pair of ids. -/
def room_name (a b : Nat) : String :=
  "chat_" ++ toString (sortedPair a b).1 ++ "_" ++ toString (sortedPair a b).2

/-- `ChatConsumer.connect`: anonymous scope users are closed immediately
(before the room name is computed, any group join, status write or send);
otherwise the session joins the canonical room, marks itself online,
broadcasts `user_status(online)` and accepts.  The third component is the
value of `self.room_group_name` after the handler (set only past the
anonymous check). -/
def chat_connect (st : Store) (ident : Ident) (otherId : Nat) :
    Store × List Action × Option String :=
  match ident with
  | .anonymous => (st, [.close], none)
  | .authUser uid _ =>
    let room := room_name uid otherId
    let st1 := update_user_status st (some uid) true
    (st1,
     [.group_add room, .group_send room (.user_status uid true), .accept],
     some room)

/-- `ChatConsumer.disconnect`: `group_discard` only if `room_group_name`
was set (`hasattr` guard); `update_user_status(False)` unconditionally;
the offline `group_send` again only under the `hasattr` guard. -/
def chat_disconnect (st : Store) (ident : Ident) (room : Option String) :
    Store × List Action :=
  let discardActs : List Action :=
    match room with
    | some r => [.group_discard r]
    | none => []
  let st1 := update_user_status st ident.idOf false
  let sendActs : List Action :=
    match room, ident with
    | some r, .authUser uid _ => [.group_send r (.user_status uid false)]
    | _, _ => []
  (st1, discardActs ++ sendActs)

/-- `PresenceConsumer.connect`: anonymous scope users are closed before
the group join, the status write and the presence broadcast.  The third
component records whether `self.presence_group` was set. -/
def presence_connect (st : Store) (ident : Ident) :
    Store × List Action × Bool :=
  match ident with
  | .anonymous => (st, [.close], false)
  | .authUser uid uname =>
    let st1 := update_user_status st (some uid) true
    (st1,
     [.group_add "presence",
      .group_send "presence" (.user_presence uid uname true), .accept],
     true)

/-- `PresenceConsumer.disconnect`: everything is guarded by
`hasattr(self, "presence_group")`. -/
def presence_disconnect (st : Store) (ident : Ident) (joined : Bool) :
    Store × List Action :=
  if joined then
    match ident with
    | .authUser uid uname =>
      (update_user_status st (some uid) false,
       [.group_send "presence" (.user_presence uid uname false),
        .group_discard "presence"])
    | .anonymous => (st, [])
  else
    (st, [])

/-- Python `str.strip()` with no argument: drop leading and trailing
whitespace. -/
def pyStrip (s : String) : String :=
  ⟨((s.data.dropWhile Char.isWhitespace).reverse.dropWhile Char.isWhitespace).reverse⟩

/-- An inbound client frame after JSON decoding, dispatched on
`data.get("type", "message")`.  Missing type-specific fields are modelled
the way the `.get` defaults produce them: `data.get("message", "")` gives
`""`, `data.get("message_ids", [])` gives `[]`, `data.get("message_id")`
gives `None`.  A frame whose `type` matches no `elif` branch is `other`. -/
inductive Frame where
  | message (text : String) : Frame
  | mark_as_read (message_ids : List Nat) : Frame
  | typing : Frame
  | stop_typing : Frame
  | delete_message (message_id : Option Nat) : Frame
  | other : Frame
deriving Repr, DecidableEq

/-- The uncaught exceptions `ChatConsumer.receive` can raise. -/
inductive RecvError where
  | jsonDecodeError : RecvError
deriving Repr, DecidableEq

/-- `ChatConsumer.receive` (`consumers.py`).  `json.loads(text_data)` is
NOT wrapped in `try/except`, so an unparsable frame (`none`) raises; that
exception propagates out of the handler and is modelled as `.error`.
All other paths return the updated store and the `group_send` trace.
Python truthiness is kept: `if message_ids:` drops the empty list and
`if message_id:` drops both `None` and `0`. -/
def receive (st : Store) (selfId : Nat) (selfName : String) (otherId : Nat)
    (frame : Option Frame) (dbOk : Bool) :
    Except RecvError (Store × List Broadcast) :=
  match frame with
  | none => .error .jsonDecodeError
  | some f =>
    match f with
    | .message text =>
      let t := pyStrip text
      if t = "" then
        .ok (st, [])
      else
        match save_message st selfId otherId t dbOk with
        | (none, st1) => .ok (st1, [])
        | (some m, st1) =>
          .ok (st1, [.chat_message m.id m.content selfId selfName m.timestamp])
    | .mark_as_read message_ids =>
      if message_ids.isEmpty then
        .ok (st, [])
      else
        .ok (mark_messages_read st message_ids selfId dbOk,
             [.message_read message_ids])
    | .typing => .ok (st, [.typing selfId])
    | .stop_typing => .ok (st, [.stop_typing selfId])
    | .delete_message message_id =>
      match message_id with
      | none => .ok (st, [])
      | some mid =>
        if mid = 0 then
          .ok (st, [])
        else
          let r := if dbOk then delete_message st mid selfId else (st, 0)
          .ok (r.1, [.deleted mid])
    | .other => .ok (st, [])

/-- Projection of `receive` to its broadcast trace (empty when the handler
raised). -/
def recvOut (st : Store) (selfId : Nat) (selfName : String) (otherId : Nat)
    (f : Frame) (dbOk : Bool) : List Broadcast :=
  match receive st selfId selfName otherId (some f) dbOk with
  | .ok r => r.2
  | .error _ => []

/-- Concrete store with users 5 and 9 and otherwise empty tables. -/
def stTwo : Store :=
  ⟨[⟨5, "alice", false⟩, ⟨9, "bob", false⟩], [], [], 1, 1, 0⟩

/-- Concrete store where users 5 and 9 share conversation 1 holding
message 1 sent by user 5, still unread. -/
def stMsg : Store :=
  ⟨[⟨5, "alice", false⟩, ⟨9, "bob", false⟩], [⟨1, 5, 9⟩],
   [⟨1, 1, 5, "hi", 0, false⟩], 2, 2, 1⟩

/-- Concrete store with two conversations: room conversation 1 between
users 5 and 9, and conversation 2 between users 5 and 7 holding unread
message 3 sent by user 7. -/
def stCross : Store :=
  ⟨[⟨5, "alice", false⟩, ⟨9, "bob", false⟩, ⟨7, "carol", false⟩],
   [⟨1, 5, 9⟩, ⟨2, 5, 7⟩], [⟨3, 2, 7, "psst", 0, false⟩], 3, 4, 2⟩

theorem sortedPair_comm (a b : Nat) : sortedPair a b = sortedPair b a := by
  unfold sortedPair
  by_cases h : a ≤ b <;> by_cases h2 : b ≤ a <;>
    simp [h, h2, Prod.mk.injEq] <;> omega

theorem minMaxPair_eq_sortedPair (a b : Nat) : minMaxPair a b = sortedPair a b := by
  unfold minMaxPair sortedPair
  by_cases h : a ≤ b <;> by_cases h2 : b ≤ a <;>
    simp [h, h2, Prod.mk.injEq] <;> omega

theorem get_or_create_comm (st : Store) (a b : Nat) :
    get_or_create_conversation st a b = get_or_create_conversation st b a := by
  unfold get_or_create_conversation
  rw [sortedPair_comm]

theorem chat_view_get_or_create_eq (st : Store) (a b : Nat) :
    chat_view_get_or_create st a b = get_or_create_conversation st a b := by
  unfold chat_view_get_or_create get_or_create_conversation
  rw [minMaxPair_eq_sortedPair]

/-- C1: the conversation get-or-create canonicalizes a pair of distinct
users by ascending id, so the (A,B) and (B,A) calls yield the same
conversation row, on the message-save path (`ChatConsumer.save_message`,
which sorts the pair) and on the chat-view path (`chat_view`, which uses
`min`/`max`), and the two paths agree on the row. -/
theorem getOrCreate_comm (st : Store) (a b : Nat) (_hab : a ≠ b) :
    get_or_create_conversation st a b = get_or_create_conversation st b a ∧
    chat_view_get_or_create st a b = chat_view_get_or_create st b a ∧
    chat_view_get_or_create st a b = get_or_create_conversation st a b :=
  ⟨get_or_create_comm st a b,
   by rw [chat_view_get_or_create_eq, chat_view_get_or_create_eq,
          get_or_create_comm],
   chat_view_get_or_create_eq st a b⟩

/-- Witness for C1 at the concrete pair (5, 9). -/
theorem getOrCreate_comm_witness :
    get_or_create_conversation stTwo 5 9 = get_or_create_conversation stTwo 9 5 ∧
    chat_view_get_or_create stTwo 5 9 = chat_view_get_or_create stTwo 9 5 ∧
    chat_view_get_or_create stTwo 5 9 = get_or_create_conversation stTwo 5 9 :=
  getOrCreate_comm stTwo 5 9 (by decide)

/-- C6: an anonymous connection to the chat endpoint or the presence
endpoint is closed immediately, and the whole connect-plus-disconnect
lifecycle performs no group join, no broadcast and no store write. -/
theorem anonymous_lifecycle (st : Store) (otherId : Nat) :
    chat_connect st .anonymous otherId = (st, [.close], none) ∧
    chat_disconnect st .anonymous none = (st, []) ∧
    presence_connect st .anonymous = (st, [.close], false) ∧
    presence_disconnect st .anonymous false = (st, []) :=
  ⟨rfl, rfl, rfl, rfl⟩

/-- C7 counterexample: an unparsable frame does not get dropped silently —
`json.loads` is outside any `try`, so `receive` raises instead of
returning without effects. -/
theorem unparsable_frame_raises :
    receive stTwo 5 "alice" 9 none true = .error .jsonDecodeError ∧
    receive stTwo 5 "alice" 9 none true ≠ .ok (stTwo, []) :=
  ⟨rfl, fun h => Except.noConfusion h⟩

/-- C7 (amended): a frame that decodes but is missing its required fields
is dropped silently — no error, no store write, no broadcast — and the
same holds for an unrecognized type; only an unparsable frame escapes as
an exception. -/
theorem missing_fields_dropped (st : Store) (selfId : Nat) (selfName : String)
    (otherId : Nat) (dbOk : Bool) :
    receive st selfId selfName otherId (some (.message "")) dbOk = .ok (st, []) ∧
    receive st selfId selfName otherId (some (.mark_as_read [])) dbOk = .ok (st, []) ∧
    receive st selfId selfName otherId (some (.delete_message none)) dbOk = .ok (st, []) ∧
    receive st selfId selfName otherId (some .other) dbOk = .ok (st, []) := by
  exact ⟨rfl, rfl, rfl, rfl⟩

/-- C9 counterexample: a chat session that never set its room name (for
example after an anonymous connect) broadcasts nothing on disconnect — the
offline `group_send` sits behind the same `hasattr` guard as the group
leave, so it is not attempted when the join was skipped. -/
theorem disconnect_without_room_no_broadcast :
    chat_disconnect stTwo .anonymous none = (stTwo, []) := rfl

/-- C9 (amended): on disconnect the session attempts the mark-offline
store update unconditionally, but it leaves the room group and broadcasts
`{user_id, is_online:false}` only when the room name was set during
connect; when the join step was skipped, no broadcast is attempted. -/
theorem chat_disconnect_spec (st : Store) (uid : Nat) (uname : String) (r : String) :
    chat_disconnect st (.authUser uid uname) (some r) =
      (update_user_status st (some uid) false,
       [.group_discard r, .group_send r (.user_status uid false)]) ∧
    (∀ ident : Ident, chat_disconnect st ident none =
      (update_user_status st ident.idOf false, [])) := by
  refine ⟨rfl, fun ident => ?_⟩
  cases ident <;> rfl

/-- C2: markRead sets `is_read` to true exactly on the messages whose id
is in the list, whose sender differs from the reader and whose `is_read`
was false; it never flips a message whose sender is the reader, and an
empty or non-matching id set is a no-op, not an error. -/
theorem mark_read_spec (st : Store) (ids : List Nat) (r : Nat) :
    (mark_messages_read st ids r true).users = st.users ∧
    (mark_messages_read st ids r true).conversations = st.conversations ∧
    (mark_messages_read st ids r true).messages
      = st.messages.map (fun m =>
          if m.id ∈ ids ∧ m.sender ≠ r ∧ m.is_read = false then
            { m with is_read := true }
          else m) ∧
    (∀ m ∈ st.messages, m.sender = r →
      (if m.id ∈ ids ∧ m.sender ≠ r ∧ m.is_read = false then
          { m with is_read := true }
        else m) = m) ∧
    mark_messages_read st [] r true = st ∧
    ((∀ m ∈ st.messages, ¬(m.id ∈ ids ∧ m.sender ≠ r ∧ m.is_read = false)) →
      mark_messages_read st ids r true = st) := by
  have hpt : ∀ m : Message,
      (if ids.contains m.id && !m.is_read && m.sender != r then
          { m with is_read := true }
        else m)
      = (if m.id ∈ ids ∧ m.sender ≠ r ∧ m.is_read = false then
          { m with is_read := true }
        else m) := by
    intro m
    by_cases h1 : m.id ∈ ids <;> by_cases h2 : m.sender = r <;>
      cases h3 : m.is_read <;>
      simp [h1, h2, h3, List.elem_iff, List.contains]
  refine ⟨rfl, rfl, ?_, ?_, ?_, ?_⟩
  · show (st.messages.map _) = _
    exact List.map_congr_left (fun m _ => hpt m)
  · intro m _ h2
    rw [if_neg]
    rintro ⟨_, hne, _⟩
    exact hne h2
  · show { st with messages := st.messages.map _ } = st
    have : st.messages.map (fun m =>
        if ([] : List Nat).contains m.id && !m.is_read && m.sender != r then
          { m with is_read := true }
        else m) = st.messages := by
      rw [List.map_congr_left (g := id) (fun m _ => by simp [List.contains])]
      exact List.map_id _
    rw [this]
  · intro h
    show { st with messages := st.messages.map _ } = st
    have : st.messages.map (fun m =>
        if ids.contains m.id && !m.is_read && m.sender != r then
          { m with is_read := true }
        else m) = st.messages := by
      rw [List.map_congr_left (g := id) (fun m hm => by
        rw [hpt m, if_neg (h m hm)]; rfl)]
      exact List.map_id _
    rw [this]

/-- Witness for C2 at a concrete store: message 1 (sender 5, unread) with
reader 9 and id list [1]. -/
theorem mark_read_spec_witness :
    (mark_messages_read stMsg [1] 9 true).users = stMsg.users ∧
    (mark_messages_read stMsg [1] 9 true).conversations = stMsg.conversations ∧
    (mark_messages_read stMsg [1] 9 true).messages
      = stMsg.messages.map (fun m =>
          if m.id ∈ [1] ∧ m.sender ≠ 9 ∧ m.is_read = false then
            { m with is_read := true }
          else m) ∧
    (∀ m ∈ stMsg.messages, m.sender = 9 →
      (if m.id ∈ [1] ∧ m.sender ≠ 9 ∧ m.is_read = false then
          { m with is_read := true }
        else m) = m) ∧
    mark_messages_read stMsg [] 9 true = stMsg ∧
    ((∀ m ∈ stMsg.messages, ¬(m.id ∈ [1] ∧ m.sender ≠ 9 ∧ m.is_read = false)) →
      mark_messages_read stMsg [1] 9 true = stMsg) :=
  mark_read_spec stMsg [1] 9

/-- C3: for a `message` frame the room broadcast is sent iff the stripped
text is non-empty and the store created the row (a persistence failure
suppresses it); no other inbound type gates its broadcast on store
success. -/
theorem message_broadcast_gating (st : Store) (selfId : Nat) (selfName : String)
    (otherId : Nat) (text : String) (dbOk : Bool) :
    (recvOut st selfId selfName otherId (.message text) dbOk ≠ [] ↔
      (pyStrip text ≠ "" ∧
        (save_message st selfId otherId (pyStrip text) dbOk).1.isSome)) ∧
    (∀ f : Frame, (∀ t, f ≠ Frame.message t) →
      recvOut st selfId selfName otherId f true
        = recvOut st selfId selfName otherId f false) := by
  constructor
  · by_cases ht : pyStrip text = ""
    · simp [recvOut, receive, ht]
    · rcases hs : save_message st selfId otherId (pyStrip text) dbOk with ⟨mo, st1⟩
      cases mo with
      | none => simp [recvOut, receive, ht, hs]
      | some m => simp [recvOut, receive, ht, hs]
  · intro f hf
    cases f with
    | message t => exact absurd rfl (hf t)
    | mark_as_read ids => by_cases h : ids.isEmpty <;> simp [recvOut, receive, h]
    | typing => rfl
    | stop_typing => rfl
    | delete_message mo =>
      cases mo with
      | none => rfl
      | some mid => by_cases h : mid = 0 <;> simp [recvOut, receive, h]
    | other => rfl

/-- Witness for C3 at a concrete input: user 5 sending " hi " to user 9 in
`stTwo` with a healthy store. -/
theorem message_broadcast_gating_witness :
    (recvOut stTwo 5 "alice" 9 (.message " hi ") true ≠ [] ↔
      (pyStrip " hi " ≠ "" ∧
        (save_message stTwo 5 9 (pyStrip " hi ") true).1.isSome)) ∧
    (∀ f : Frame, (∀ t, f ≠ Frame.message t) →
      recvOut stTwo 5 "alice" 9 f true = recvOut stTwo 5 "alice" 9 f false) :=
  message_broadcast_gating stTwo 5 "alice" 9 " hi " true

theorem filter_by_id_len_le_one (l : List Message) (mid : Nat)
    (hnd : (l.map Message.id).Nodup) (p : Message → Bool)
    (hp : ∀ m, p m = true → m.id = mid) :
    (l.filter p).length ≤ 1 := by
  induction l with
  | nil => simp
  | cons a l ih =>
    rw [List.map_cons, List.nodup_cons] at hnd
    by_cases hpa : p a = true
    · have htail : l.filter p = [] := by
        rw [List.filter_eq_nil_iff]
        intro m hm hpm
        exact hnd.1 (by
          rw [hp a hpa, ← hp m hpm]
          exact List.mem_map_of_mem _ hm)
      rw [List.filter_cons_of_pos hpa, htail]
      simp
    · rw [List.filter_cons_of_neg (by simpa using hpa)]
      exact Nat.le_trans (ih hnd.2) (le_refl 1)

/-- C5: deleteMessage removes a message iff its sender is the requester,
the affected count it computes is 0 or 1 and is 1 exactly when an
authorized match exists, and a missing message or an unauthorized
requester both collapse to 0 affected with the store untouched, never an
error. -/
theorem delete_message_spec (st : Store) (mid req : Nat)
    (hnd : (st.messages.map Message.id).Nodup) :
    ((delete_message st mid req).2 = 0 ∨ (delete_message st mid req).2 = 1) ∧
    (∀ m, m ∈ (delete_message st mid req).1.messages ↔
      (m ∈ st.messages ∧ ¬(m.id = mid ∧ m.sender = req))) ∧
    ((delete_message st mid req).2 = 1 ↔
      ∃ m, m ∈ st.messages ∧ m.id = mid ∧ m.sender = req) ∧
    ((¬ ∃ m, m ∈ st.messages ∧ m.id = mid) →
      delete_message st mid req = (st, 0)) ∧
    ((∀ m, m ∈ st.messages → m.id = mid → m.sender ≠ req) →
      delete_message st mid req = (st, 0)) := by
  have hle : (st.messages.filter
      (fun m => m.id == mid && m.sender == req)).length ≤ 1 := by
    refine filter_by_id_len_le_one st.messages mid hnd _ ?_
    intro m h
    simp only [Bool.and_eq_true, beq_iff_eq] at h
    exact h.1
  refine ⟨?_, ?_, ?_, ?_, ?_⟩
  · show (st.messages.filter (fun m => m.id == mid && m.sender == req)).length = 0 ∨
      (st.messages.filter (fun m => m.id == mid && m.sender == req)).length = 1
    omega
  · intro m
    show m ∈ st.messages.filter _ ↔ _
    simp only [List.mem_filter, Bool.not_eq_true', Bool.and_eq_true,
      Bool.not_eq_true, Bool.and_eq_false_iff, beq_iff_eq, beq_eq_false_iff_ne,
      ne_eq]
    constructor
    · rintro ⟨hm, h⟩
      refine ⟨hm, ?_⟩
      rintro ⟨h1, h2⟩
      rcases h with h | h
      · exact h h1
      · exact h h2
    · rintro ⟨hm, h⟩
      refine ⟨hm, ?_⟩
      by_cases h1 : m.id = mid
      · exact Or.inr (fun h2 => h ⟨h1, h2⟩)
      · exact Or.inl h1
  · show (st.messages.filter _).length = 1 ↔ _
    constructor
    · intro h1
      have hne : st.messages.filter (fun m => m.id == mid && m.sender == req) ≠ [] := by
        intro h
        rw [h] at h1
        simp at h1
      rcases List.exists_mem_of_ne_nil _ hne with ⟨m, hm⟩
      rw [List.mem_filter] at hm
      refine ⟨m, hm.1, ?_⟩
      have := hm.2
      simp only [Bool.and_eq_true, beq_iff_eq] at this
      exact this
    · rintro ⟨m, hm, h1, h2⟩
      have hmem : m ∈ st.messages.filter (fun m => m.id == mid && m.sender == req) := by
        rw [List.mem_filter]
        exact ⟨hm, by simp [h1, h2]⟩
      have := List.length_pos_of_mem hmem
      omega
  · intro h
    have hfix : st.messages.filter
        (fun m => !(m.id == mid && m.sender == req)) = st.messages := by
      rw [List.filter_eq_self]
      intro m hm
      simp only [Bool.not_eq_eq_eq_not, Bool.not_true, Bool.and_eq_false_iff,
        beq_eq_false_iff_ne, ne_eq]
      exact Or.inl (fun h1 => h ⟨m, hm, h1⟩)
    have hnil : st.messages.filter
        (fun m => m.id == mid && m.sender == req) = [] := by
      rw [List.filter_eq_nil_iff]
      intro m hm hq
      simp only [Bool.and_eq_true, beq_iff_eq] at hq
      exact h ⟨m, hm, hq.1⟩
    show (_, _) = (st, 0)
    rw [Prod.mk.injEq]
    constructor
    · show { st with messages := _ } = st
      rw [hfix]
    · show (st.messages.filter _).length = 0
      rw [hnil]
      rfl
  · intro h
    have hfix : st.messages.filter
        (fun m => !(m.id == mid && m.sender == req)) = st.messages := by
      rw [List.filter_eq_self]
      intro m hm
      simp only [Bool.not_eq_eq_eq_not, Bool.not_true, Bool.and_eq_false_iff,
        beq_eq_false_iff_ne, ne_eq]
      by_cases h1 : m.id = mid
      · exact Or.inr (h m hm h1)
      · exact Or.inl h1
    have hnil : st.messages.filter
        (fun m => m.id == mid && m.sender == req) = [] := by
      rw [List.filter_eq_nil_iff]
      intro m hm hq
      simp only [Bool.and_eq_true, beq_iff_eq] at hq
      exact h m hm hq.1 hq.2
    show (_, _) = (st, 0)
    rw [Prod.mk.injEq]
    constructor
    · show { st with messages := _ } = st
      rw [hfix]
    · show (st.messages.filter _).length = 0
      rw [hnil]
      rfl

/-- Witness for C5 at the concrete store `stMsg` (message 1, sender 5)
with requester 9. -/
theorem delete_message_spec_witness :
    ((delete_message stMsg 1 9).2 = 0 ∨ (delete_message stMsg 1 9).2 = 1) ∧
    (∀ m, m ∈ (delete_message stMsg 1 9).1.messages ↔
      (m ∈ stMsg.messages ∧ ¬(m.id = 1 ∧ m.sender = 9))) ∧
    ((delete_message stMsg 1 9).2 = 1 ↔
      ∃ m, m ∈ stMsg.messages ∧ m.id = 1 ∧ m.sender = 9) ∧
    ((¬ ∃ m, m ∈ stMsg.messages ∧ m.id = 1) →
      delete_message stMsg 1 9 = (stMsg, 0)) ∧
    ((∀ m, m ∈ stMsg.messages → m.id = 1 → m.sender ≠ 9) →
      delete_message stMsg 1 9 = (stMsg, 0)) :=
  delete_message_spec stMsg 1 9 (by decide)

/-- C4: a delete_message request by a non-sender leaves every message row
intact, yet the deletion notice is still broadcast to the room, with
exactly the same trace as a delete by the real sender. -/
theorem delete_by_non_sender (st : Store) (selfName : String)
    (otherId requester mid : Nat) (tgt : Message)
    (htgt : tgt ∈ st.messages) (hid : tgt.id = mid)
    (hsender : tgt.sender ≠ requester)
    (hnd : (st.messages.map Message.id).Nodup) (h0 : mid ≠ 0) :
    receive st requester selfName otherId
        (some (.delete_message (some mid))) true = .ok (st, [.deleted mid]) ∧
    recvOut st tgt.sender selfName otherId (.delete_message (some mid)) true
      = [.deleted mid] := by
  have hfix : st.messages.filter
      (fun m => !(m.id == mid && m.sender == requester)) = st.messages := by
    rw [List.filter_eq_self]
    intro m hm
    simp only [Bool.not_eq_eq_eq_not, Bool.not_true, Bool.and_eq_false_iff,
      beq_eq_false_iff_ne, ne_eq]
    by_cases h1 : m.id = mid
    · refine Or.inr ?_
      have hm_eq : m = tgt :=
        List.inj_on_of_nodup_map hnd hm htgt (by rw [h1, hid])
      rw [hm_eq]
      exact hsender
    · exact Or.inl h1
  have hst : (delete_message st mid requester).1 = st := by
    show { st with messages := (st.messages.filter
        (fun m => !(m.id == mid && m.sender == requester))) } = st
    rw [hfix]
  constructor
  · simp [receive, h0, hst]
  · simp [recvOut, receive, h0]

/-- Witness for C4: requester 9 asks to delete message 1, which user 5
sent, in the concrete store `stMsg`. -/
theorem delete_by_non_sender_witness :
    receive stMsg 9 "bob" 5 (some (.delete_message (some 1))) true
      = .ok (stMsg, [.deleted 1]) ∧
    recvOut stMsg (Message.sender ⟨1, 1, 5, "hi", 0, false⟩) "bob" 5
      (.delete_message (some 1)) true = [.deleted 1] :=
  delete_by_non_sender stMsg "bob" 5 9 1 ⟨1, 1, 5, "hi", 0, false⟩
    (by decide) (by decide) (by decide) (by decide) (by decide)

theorem sortedPair_le (a b : Nat) : (sortedPair a b).1 ≤ (sortedPair a b).2 := by
  unfold sortedPair
  split <;> omega

theorem sortedPair_lt (a b : Nat) (h : a ≠ b) :
    (sortedPair a b).1 < (sortedPair a b).2 := by
  unfold sortedPair
  split <;> omega

theorem get_or_create_conversations (st : Store) (a b : Nat) :
    ∀ c ∈ ((get_or_create_conversation st a b).2).conversations,
      c ∈ st.conversations ∨
        (c.user1 = (sortedPair a b).1 ∧ c.user2 = (sortedPair a b).2) := by
  intro c hc
  unfold get_or_create_conversation at hc
  cases hf : st.conversations.find? (fun c =>
      c.user1 == (sortedPair a b).1 && c.user2 == (sortedPair a b).2) with
  | some c0 =>
    rw [hf] at hc
    exact Or.inl hc
  | none =>
    rw [hf] at hc
    simp only [List.mem_append, List.mem_singleton] at hc
    rcases hc with hc | hc
    · exact Or.inl hc
    · subst hc
      exact Or.inr ⟨rfl, rfl⟩

/-- C8 counterexample: user 5 saving a message addressed to themselves
creates a Conversation row with user1 = user2 = 5, so the strict
invariant user1.id < user2.id fails for a reachable call. -/
theorem self_conversation_violates_strict :
    ∃ c ∈ ((save_message stTwo 5 5 "hi" true).2).conversations,
      ¬(c.user1 < c.user2) := by decide

/-- C8 (amended): every Conversation row ever created satisfies
user1.id ≤ user2.id, and strictly user1.id < user2.id whenever the two
user ids the operation is called with are distinct; equality occurs only
for a self-conversation. -/
theorem conversation_pair_ordered (st : Store) (a b : Nat) (t : String)
    (dbOk : Bool) (hinv : ∀ c ∈ st.conversations, c.user1 ≤ c.user2) :
    (∀ c ∈ ((get_or_create_conversation st a b).2).conversations,
      c.user1 ≤ c.user2) ∧
    (∀ c ∈ ((chat_view_get_or_create st a b).2).conversations,
      c.user1 ≤ c.user2) ∧
    (∀ c ∈ ((save_message st a b t dbOk).2).conversations,
      c.user1 ≤ c.user2) ∧
    (a ≠ b → ∀ c ∈ ((get_or_create_conversation st a b).2).conversations,
      c ∈ st.conversations ∨ c.user1 < c.user2) := by
  have hg := get_or_create_conversations st a b
  have hgoal : ∀ c ∈ ((get_or_create_conversation st a b).2).conversations,
      c.user1 ≤ c.user2 := by
    intro c hc
    rcases hg c hc with h | ⟨h1, h2⟩
    · exact hinv c h
    · rw [h1, h2]
      exact sortedPair_le a b
  refine ⟨hgoal, ?_, ?_, ?_⟩
  · rw [chat_view_get_or_create_eq]
    exact hgoal
  · intro c hc
    have hsplit : c ∈ ((get_or_create_conversation st a b).2).conversations ∨
        c ∈ st.conversations := by
      revert hc
      unfold save_message
      cases dbOk with
      | false =>
        intro hc
        exact Or.inr hc
      | true =>
        cases hf : st.users.find? (fun u => u.id == b) with
        | none =>
          intro hc
          exact Or.inr hc
        | some u =>
          intro hc
          exact Or.inl hc
    rcases hsplit with h | h
    · exact hgoal c h
    · exact hinv c h
  · intro hab c hc
    rcases hg c hc with h | ⟨h1, h2⟩
    · exact Or.inl h
    · refine Or.inr ?_
      rw [h1, h2]
      exact sortedPair_lt a b hab

/-- Witness for C8 (amended) at the concrete store `stTwo` with the
distinct pair (5, 9). -/
theorem conversation_pair_ordered_witness :
    (∀ c ∈ ((get_or_create_conversation stTwo 5 9).2).conversations,
      c.user1 ≤ c.user2) ∧
    (∀ c ∈ ((chat_view_get_or_create stTwo 5 9).2).conversations,
      c.user1 ≤ c.user2) ∧
    (∀ c ∈ ((save_message stTwo 5 9 "hi" true).2).conversations,
      c.user1 ≤ c.user2) ∧
    ((5 : Nat) ≠ 9 → ∀ c ∈ ((get_or_create_conversation stTwo 5 9).2).conversations,
      c ∈ stTwo.conversations ∨ c.user1 < c.user2) :=
  conversation_pair_ordered stTwo 5 9 "hi" true (by decide)

/-- C10: a mark_as_read request with a non-empty id list updates matching
messages across the entire store — the query is not scoped to the
conversation of the current room — and broadcasts the client-supplied id list to the
room verbatim, regardless of which messages were actually updated. -/
theorem mark_as_read_global (st : Store) (selfId : Nat) (selfName : String)
    (otherId : Nat) (ids : List Nat) (hne : ids ≠ []) :
    receive st selfId selfName otherId (some (.mark_as_read ids)) true =
      .ok (mark_messages_read st ids selfId true, [.message_read ids]) ∧
    (∀ m ∈ st.messages, m.id ∈ ids → m.sender ≠ selfId →
      { m with is_read := true } ∈ (mark_messages_read st ids selfId true).messages) := by
  constructor
  · cases ids with
    | nil => exact absurd rfl hne
    | cons x xs => rfl
  · intro m hm hid hsend
    have hmap : (if ids.contains m.id && !m.is_read && m.sender != selfId then
        { m with is_read := true } else m) = { m with is_read := true } := by
      cases h3 : m.is_read with
      | false =>
        rw [if_pos]
        simp [List.contains, List.elem_iff, hid, h3, hsend]
      | true =>
        rw [if_neg (by simp [h3])]
        cases m with
        | mk i cv s ct ts ir =>
          simp only at h3
          rw [h3]
    have : m ∈ st.messages → (if ids.contains m.id && !m.is_read && m.sender != selfId then
        { m with is_read := true } else m) ∈ (mark_messages_read st ids selfId true).messages := by
      intro h
      exact List.mem_map_of_mem _ h
    rw [hmap] at this
    exact this hm

/-- Witness for C10: in `stCross` the reader is user 5 in the room with
user 9, yet the id list [3] targets message 3 of conversation 2 (with
user 7), which still gets marked read and the list is echoed verbatim. -/
theorem mark_as_read_global_witness :
    receive stCross 5 "alice" 9 (some (.mark_as_read [3])) true =
      .ok (mark_messages_read stCross [3] 5 true, [.message_read [3]]) ∧
    (∀ m ∈ stCross.messages, m.id ∈ [3] → m.sender ≠ 5 →
      { m with is_read := true } ∈ (mark_messages_read stCross [3] 5 true).messages) :=
  mark_as_read_global stCross 5 "alice" 9 [3] (by decide)

end ZyboChat
